import Mathlib

/-!
Shallow embedding of `tv_episode_checker.py` (Show-Tracker).

Dates are modelled as integers counting days, so a Python `date`
difference `(a - b).days` becomes integer subtraction and `d1 <= d2`
is integer comparison.  Remote lookups (TVMaze / TMDb) and the SMTP
transport are external collaborators: their results are passed in as
data, and an exception raised while checking one entity is modelled
as `Except.error ()`.
-/

namespace ShowTracker

/-- A tracked show record, as stored in `shows.json`:
`{"name": ..., "last_season": ..., "last_episode": ...}`.
Python integers are unbounded, so the numeric fields are `Int`. -/
structure TrackedShow where
  name : String
  last_season : Int
  last_episode : Int
deriving Repr, DecidableEq

/-- The `airdate` field of an episode as delivered by the gateway:
either absent (`None`), the empty string, or a parsed calendar date
(a day number). -/
inductive Airdate where
  | absent
  | empty
  | date (d : Int)
deriving Repr, DecidableEq

/-- An episode record from the gateway, with the fields the program
reads: `season`, `number`, `airdate` and `name`. -/
structure Episode where
  season : Int
  number : Int
  airdate : Airdate
  name : String
deriving Repr, DecidableEq

/-- `is_aired` (line 55): `None` and `""` are not aired; otherwise the
parsed date must be on or before today's date. -/
def is_aired (airdate : Airdate) (today : Int) : Bool :=
  match airdate with
  | .absent => false
  | .empty => false
  | .date d => decide (d ≤ today)

/-- The selection condition applied to one episode inside
`check_new_episodes` (lines 65-68): skip unaired episodes, keep an
episode whose (season, number) strictly exceeds the watch position. -/
def is_new_episode (ep : Episode) (s : TrackedShow) (today : Int) : Bool :=
  is_aired ep.airdate today &&
    (decide (ep.season > s.last_season) ||
      (decide (ep.season = s.last_season) && decide (ep.number > s.last_episode)))

/-- `check_new_episodes` (lines 60-70), with the episode list already
fetched from the gateway: the accumulation loop over `episodes`. -/
def check_new_episodes (episodes : List Episode) (s : TrackedShow) (today : Int) :
    List Episode :=
  match episodes with
  | [] => []
  | ep :: rest =>
    if ¬ (is_aired ep.airdate today = true) then
      check_new_episodes rest s today
    else if ep.season > s.last_season ∨
        (ep.season = s.last_season ∧ ep.number > s.last_episode) then
      ep :: check_new_episodes rest s today
    else
      check_new_episodes rest s today

/-- The status value computed by `check_movie_status` (lines 99-140),
with the numeric payload the returned dict carries (`days_ago` for
`released`, `days_until` for `soon`/`future`). -/
inductive MovieStatus where
  | unknown
  | released (days_ago : Int)
  | today
  | soon (days_until : Int)
  | future (days_until : Int)
deriving Repr, DecidableEq

/-- `check_movie_status` (lines 99-140) on the data it branches on:
the movie's release date as reported by the gateway (`none` models a
missing or empty `release_date` string) and today's date. -/
def check_movie_status (release_date : Option Int) (today : Int) : MovieStatus :=
  match release_date with
  | none => .unknown
  | some rd =>
    let days_until := rd - today
    if days_until < 0 then .released |days_until|
    else if days_until = 0 then .today
    else if days_until ≤ 30 then .soon days_until
    else .future days_until

/-- JSON values, the shape of the persisted files.  The `json`
library's `dump`/`load` pair is an external collaborator and is
modelled as the identity on this value tree. -/
inductive Json where
  | null
  | str (s : String)
  | num (n : Int)
  | arr (elems : List Json)
  | obj (fields : List (String × Json))

/-- Python `dict.get(key, default)` restricted to lookup: first field
with the given key, if any. -/
def lookupField : List (String × Json) → String → Option Json
  | [], _ => none
  | (k, v) :: rest, key => if k = key then some v else lookupField rest key

/-- `save_shows` (lines 41-43): the file content written is the object
`{"shows": shows}`. -/
def save_shows (shows : List Json) : Json :=
  .obj [("shows", .arr shows)]

/-- `load_shows` (lines 35-39): a missing file yields `[]`; otherwise
the file's JSON value is read and `.get("shows", [])` is applied.
Calling `.get` on a non-object raises, modelled as `Except.error`. -/
def load_shows (file : Option Json) : Except Unit Json :=
  match file with
  | none => .ok (.arr [])
  | some (.obj fields) => .ok ((lookupField fields "shows").getD (.arr []))
  | some _ => .error ()

/-- `save_movies` (lines 79-81): the file content written is the
object `{"movies": movies}`. -/
def save_movies (movies : List Json) : Json :=
  .obj [("movies", .arr movies)]

/-- `load_movies` (lines 73-77): a missing file yields `[]`; otherwise
`.get("movies", [])` on the file's JSON value. -/
def load_movies (file : Option Json) : Except Unit Json :=
  match file with
  | none => .ok (.arr [])
  | some (.obj fields) => .ok ((lookupField fields "movies").getD (.arr []))
  | some _ => .error ()

/-- Python `str.lower()`: every character lowercased. -/
def str_lower (s : String) : String :=
  ⟨s.data.map Char.toLower⟩

/-- `add_show` (lines 288-304) acting on the persisted collection.
User input is modelled post-parse: `seasonInput`/`episodeInput` are
`none` when `int(...)` raised `ValueError`.  The duplicate check
(case-insensitive name match) runs before the inputs are parsed; on
rejection or parse failure nothing is saved, so the collection is
returned unchanged. -/
def add_show (shows : List TrackedShow) (name : String)
    (seasonInput episodeInput : Option Int) : List TrackedShow :=
  if shows.any (fun s => str_lower s.name == str_lower name) then shows
  else
    match seasonInput, episodeInput with
    | some season, some episode => shows ++ [⟨name, season, episode⟩]
    | _, _ => shows

/-- `remove_show` (lines 333-350) acting on the persisted collection:
`shows.pop(choice - 1)` when the 1-based choice is in range, no change
otherwise (empty list, parse failure, or out-of-range choice). -/
def remove_show (shows : List TrackedShow) (choiceInput : Option Int) :
    List TrackedShow :=
  if shows.isEmpty then shows
  else
    match choiceInput with
    | none => shows
    | some choice =>
      if 1 ≤ choice ∧ choice ≤ shows.length then
        shows.eraseIdx (choice - 1).toNat
      else shows

/-- `update_show` (lines 371-392) acting on the persisted collection:
with an in-range 1-based choice and both numbers parsed, the selected
record's `last_season`/`last_episode` are overwritten and the list is
saved; any parse failure or out-of-range choice leaves the persisted
collection unchanged. -/
def update_show (shows : List TrackedShow)
    (choiceInput newSeasonInput newEpisodeInput : Option Int) : List TrackedShow :=
  if shows.isEmpty then shows
  else
    match choiceInput, newSeasonInput, newEpisodeInput with
    | some choice, some ns, some ne =>
      if 1 ≤ choice ∧ choice ≤ shows.length then
        match shows[(choice - 1).toNat]? with
        | some old =>
            shows.set (choice - 1).toNat { old with last_season := ns, last_episode := ne }
        | none => shows
      else shows
    | _, _, _ => shows

/-- The `tv_data` dict assembled by `check_all_and_email`
(lines 274-277): new episodes keyed by show name (insertion-ordered,
modelled as an association list) and the names with nothing new. -/
structure TvData where
  new_episodes : List (String × List Episode)
  no_new_episodes : List String
deriving Repr, DecidableEq

/-- A movie check result: the title together with the status computed
by `check_movie_status`. -/
structure MovieReport where
  title : String
  release_date : Int
  status : MovieStatus
deriving Repr, DecidableEq

/-- The `movie_data` dict assembled by `check_all_and_email`
(lines 278-283): the four status buckets. -/
structure MovieData where
  released : List MovieReport
  today : List MovieReport
  soon : List MovieReport
  future : List MovieReport
deriving Repr, DecidableEq

/-- The TV half of the `check_all_and_email` loop (lines 231-243).
Each tracked show is paired with the outcome of its remote check:
`Except.error ()` when `check_new_episodes` raised (network/HTTP
failure), `Except.ok eps` with the fetched episode list otherwise.
An exception is caught per show and contributes nothing. -/
def processShows (results : List (TrackedShow × Except Unit (List Episode)))
    (today : Int) : TvData :=
  match results with
  | [] => ⟨[], []⟩
  | (_, .error _) :: rest => processShows rest today
  | (s, .ok eps) :: rest =>
    let new_eps := check_new_episodes eps s today
    let tv := processShows rest today
    if ¬ new_eps.isEmpty then
      ⟨(s.name, new_eps) :: tv.new_episodes, tv.no_new_episodes⟩
    else
      ⟨tv.new_episodes, s.name :: tv.no_new_episodes⟩

/-- The movie half of the `check_all_and_email` loop (lines 252-271).
Each tracked movie is paired with the outcome of `check_movie_status`;
an exception is caught per movie and contributes nothing, and the
remaining statuses are dispatched into the four buckets (the `else`
branch, line 267, collects both `future` and `unknown`). -/
def processMovies (results : List (Except Unit MovieReport)) : MovieData :=
  match results with
  | [] => ⟨[], [], [], []⟩
  | .error _ :: rest => processMovies rest
  | .ok m :: rest =>
    let mv := processMovies rest
    match m.status with
    | .released _ => { mv with released := m :: mv.released }
    | .today => { mv with today := m :: mv.today }
    | .soon _ => { mv with soon := m :: mv.soon }
    | _ => { mv with future := m :: mv.future }

/-- The notability test of `send_combined_email` (line 157):
`not new_episodes and not today_movies and not soon_movies`. -/
def nothingNotable (tv : TvData) (mv : MovieData) : Bool :=
  tv.new_episodes.isEmpty && mv.today.isEmpty && mv.soon.isEmpty

/-- Whether `send_combined_email` (lines 143-159) reaches the
transmission attempt: it returns early when the email configuration
is incomplete (line 145) and again when there is nothing notable to
report (line 157). -/
def send_attempted (configOk : Bool) (tv : TvData) (mv : MovieData) : Bool :=
  if ¬ (configOk = true) then false
  else if nothingNotable tv mv then false
  else true

/-- `check_all_and_email` (lines 222-285) up to the send decision:
process both collections and apply `send_combined_email`'s guards. -/
def check_all_send (configOk : Bool)
    (showResults : List (TrackedShow × Except Unit (List Episode)))
    (movieResults : List (Except Unit MovieReport)) (today : Int) : Bool :=
  send_attempted configOk (processShows showResults today) (processMovies movieResults)

/-- The `days_ago` field of a computed movie status, present exactly
on `released` records. -/
def daysAgoOf : MovieStatus → Option Int
  | .released d => some d
  | _ => none

/-- The RECENTLY RELEASED section of the digest body (lines 197-202):
the loop walks `released_movies` in order and emits a line only for
movies released at most 7 days ago. -/
def released_section (released : List MovieReport) : List MovieReport :=
  released.filter (fun m =>
    match daysAgoOf m.status with
    | some d => decide (d ≤ 7)
    | none => false)

/-- One user-level operation on the persisted shows collection. -/
inductive StoreOp where
  | add (name : String) (seasonInput episodeInput : Option Int)
  | update (choiceInput newSeasonInput newEpisodeInput : Option Int)
  | remove (choiceInput : Option Int)

/-- Apply one operation to the persisted shows collection. -/
def apply_op (shows : List TrackedShow) : StoreOp → List TrackedShow
  | .add n si ei => add_show shows n si ei
  | .update c s e => update_show shows c s e
  | .remove c => remove_show shows c

/-- The persisted shows collection reached from a first run (no file,
hence the empty collection) by a sequence of operations. -/
def run_ops (ops : List StoreOp) : List TrackedShow :=
  ops.foldl apply_op []

/-- Whether every season/episode number the user supplied in this
operation is non-negative (the source never checks this). -/
def op_inputs_nonneg : StoreOp → Bool
  | .add _ si ei =>
      (match si with | some v => decide (0 ≤ v) | none => true) &&
      (match ei with | some v => decide (0 ≤ v) | none => true)
  | .update _ s e =>
      (match s with | some v => decide (0 ≤ v) | none => true) &&
      (match e with | some v => decide (0 ≤ v) | none => true)
  | .remove _ => true

/-- Every stored record has non-negative season and episode fields. -/
def show_invariant (shows : List TrackedShow) : Prop :=
  ∀ s ∈ shows, 0 ≤ s.last_season ∧ 0 ≤ s.last_episode

/-! ## Theorems -/

/-- C1: for every episode and watch position, the episode-is-new
predicate is false when the air date is absent, empty, or strictly in
the future; otherwise it holds iff (season, number) strictly exceeds
(last_season, last_episode) in season-major lexicographic order; in
particular it is false when (season, number) equals the position. -/
theorem is_new_episode_spec (ep : Episode) (s : TrackedShow) (today : Int) :
    ((ep.airdate = .absent ∨ ep.airdate = .empty) → is_new_episode ep s today = false) ∧
    (∀ d, ep.airdate = .date d → today < d → is_new_episode ep s today = false) ∧
    (is_aired ep.airdate today = true →
      (is_new_episode ep s today = true ↔
        (s.last_season < ep.season ∨
          (ep.season = s.last_season ∧ s.last_episode < ep.number)))) ∧
    ((ep.season = s.last_season ∧ ep.number = s.last_episode) →
      is_new_episode ep s today = false) := by
  refine ⟨?_, ?_, ?_, ?_⟩
  · rintro (h | h) <;> simp [is_new_episode, is_aired, h]
  · intro d hd hlt
    have hna : ¬ d ≤ today := not_le.mpr hlt
    simp [is_new_episode, is_aired, hd, hna]
  · intro ha
    simp [is_new_episode, ha, Bool.and_eq_true, Bool.or_eq_true, decide_eq_true_eq]
  · rintro ⟨h1, h2⟩
    simp [is_new_episode, h1, h2]

/-- Witness for C1: at the watch position itself the predicate is
false. -/
theorem is_new_episode_spec_witness :
    is_new_episode ⟨2, 5, .date 0, "ep"⟩ ⟨"s", 2, 5⟩ 10 = false :=
  (is_new_episode_spec ⟨2, 5, .date 0, "ep"⟩ ⟨"s", 2, 5⟩ 10).2.2.2 ⟨rfl, rfl⟩

/-- C2: `check_new_episodes` returns exactly the order-preserving
sublist of its input selected by the is-new predicate: it equals a
filter of the input list. -/
theorem check_new_episodes_eq_filter (episodes : List Episode) (s : TrackedShow)
    (today : Int) :
    check_new_episodes episodes s today =
      episodes.filter (fun ep => is_new_episode ep s today) := by
  induction episodes with
  | nil => rfl
  | cons ep rest ih =>
    by_cases ha : is_aired ep.airdate today = true
    · by_cases hn : ep.season > s.last_season ∨
        (ep.season = s.last_season ∧ ep.number > s.last_episode)
      · have hb : is_new_episode ep s today = true := by
          rcases hn with h | ⟨h1, h2⟩ <;>
            simp [is_new_episode, ha, *]
        simp [check_new_episodes, ha, hn, List.filter, hb, ih]
      · have hb : is_new_episode ep s today = false := by
          simp only [is_new_episode, ha, Bool.true_and]
          simp only [not_or, not_and] at hn
          rcases hn with ⟨h1, h2⟩
          by_cases he : ep.season = s.last_season <;> simp [h1, h2, he]
        simp [check_new_episodes, ha, hn, List.filter, hb, ih]
    · have hb : is_new_episode ep s today = false := by
        simp only [Bool.not_eq_true] at ha
        simp [is_new_episode, ha]
      simp [check_new_episodes, ha, List.filter, hb, ih]

/-- C3: the movie classifier returns `unknown` with no release date;
otherwise with `days_until = release_date - today`, a negative value
gives `released` with the absolute value as days ago, zero gives
`today`, one through thirty gives `soon`, and anything larger gives
`future`. -/
theorem check_movie_status_spec (r today : Int) :
    (check_movie_status none today = .unknown) ∧
    (r - today < 0 → check_movie_status (some r) today = .released (today - r)) ∧
    (r - today = 0 → check_movie_status (some r) today = .today) ∧
    (0 < r - today ∧ r - today ≤ 30 → check_movie_status (some r) today = .soon (r - today)) ∧
    (30 < r - today → check_movie_status (some r) today = .future (r - today)) := by
  refine ⟨rfl, ?_, ?_, ?_, ?_⟩
  · intro h
    have habs : |r - today| = today - r := by
      rw [abs_of_neg h]; ring
    simp [check_movie_status, h, habs]
  · intro h
    simp [check_movie_status, h]
  · rintro ⟨h1, h2⟩
    have hn : ¬ r - today < 0 := by omega
    have hz : ¬ r - today = 0 := by omega
    simp [check_movie_status, hn, hz, h2]
  · intro h
    have hn : ¬ r - today < 0 := by omega
    have hz : ¬ r - today = 0 := by omega
    have hs : ¬ r - today ≤ 30 := by omega
    simp [check_movie_status, hn, hz, hs]

/-- Witness for C3: a release date 30 days out is classified `soon`,
one 31 days out `future`, yesterday is `released` with delta 1. -/
theorem check_movie_status_spec_witness :
    check_movie_status (some 30) 0 = .soon 30 ∧
    check_movie_status (some 31) 0 = .future 31 ∧
    check_movie_status (some 0) 0 = .today ∧
    check_movie_status (some (-1)) 0 = .released 1 :=
  ⟨(check_movie_status_spec 30 0).2.2.2.1 (by decide),
   (check_movie_status_spec 31 0).2.2.2.2 (by decide),
   (check_movie_status_spec 0 0).2.2.1 (by decide),
   (check_movie_status_spec (-1) 0).2.1 (by decide)⟩

/-- C6: saving a collection and reloading yields the identical,
identically ordered collection, for shows and for movies alike. -/
theorem save_load_round_trip (shows movies : List Json) :
    load_shows (some (save_shows shows)) = .ok (.arr shows) ∧
    load_movies (some (save_movies movies)) = .ok (.arr movies) := by
  constructor <;> simp [load_shows, save_shows, load_movies, save_movies, lookupField]

/-- C10: loading with no persisted file returns the empty collection,
for shows and for movies alike; a first run is not an error. -/
theorem load_absent_file_empty :
    load_shows none = .ok (.arr []) ∧ load_movies none = .ok (.arr []) :=
  ⟨rfl, rfl⟩

/-- C7: adding a show whose name matches an existing entry's name
case-insensitively is rejected and the persisted collection is left
unchanged. -/
theorem add_show_rejects_duplicate (shows : List TrackedShow) (name : String)
    (si ei : Option Int) (h : ∃ s ∈ shows, str_lower s.name = str_lower name) :
    add_show shows name si ei = shows := by
  have hany : shows.any (fun s => str_lower s.name == str_lower name) = true := by
    rcases h with ⟨s, hs, he⟩
    exact List.any_eq_true.mpr ⟨s, hs, by simp [he]⟩
  simp [add_show, hany]

/-- Witness for C7: adding "LOST" when "Lost" is tracked changes
nothing. -/
theorem add_show_rejects_duplicate_witness :
    add_show [⟨"Lost", 1, 2⟩] "LOST" (some 3) (some 4) = [⟨"Lost", 1, 2⟩] :=
  add_show_rejects_duplicate _ _ _ _ ⟨⟨"Lost", 1, 2⟩, by simp, by decide⟩

/-- C8: an exception while checking one show (or one movie) removes
exactly that entity from the run's results: processing with the
failing entity equals processing the remaining entities alone, for
any split of the iteration around the failure. -/
theorem per_entity_failure_isolated
    (pre post : List (TrackedShow × Except Unit (List Episode))) (s : TrackedShow)
    (today : Int) (mpre mpost : List (Except Unit MovieReport)) :
    processShows (pre ++ (s, .error ()) :: post) today =
      processShows (pre ++ post) today ∧
    processMovies (mpre ++ .error () :: mpost) = processMovies (mpre ++ mpost) := by
  constructor
  · induction pre with
    | nil => simp [processShows]
    | cons p rest ih =>
      obtain ⟨sh, r⟩ := p
      cases r <;> simp [processShows, ih]
  · induction mpre with
    | nil => simp [processMovies]
    | cons r rest ih =>
      cases r <;> simp [processMovies, ih]

/-- C9: a movie classified released is collected in the computed
released bucket regardless of how long ago it released, but the
digest's recently-released section, built at formatting time, keeps
it only when it released at most 7 days ago. -/
theorem released_filtered_at_format_only
    (results : List (Except Unit MovieReport)) (m : MovieReport) (d : Int)
    (hm : m.status = .released d) (hin : Except.ok m ∈ results) :
    m ∈ (processMovies results).released ∧
    (7 < d → m ∉ released_section (processMovies results).released) ∧
    (d ≤ 7 → m ∈ released_section (processMovies results).released) := by
  have hmem : m ∈ (processMovies results).released := by
    induction results with
    | nil => cases hin
    | cons r rest ih =>
      rcases List.mem_cons.mp hin with heq | htl
      · subst heq
        simp [processMovies, hm]
      · cases r with
        | error e => simpa [processMovies] using ih htl
        | ok m2 =>
          have ihm := ih htl
          cases h2 : m2.status <;> simp [processMovies, h2] <;>
            first
            | exact ihm
            | exact Or.inr ihm
  refine ⟨hmem, ?_, ?_⟩
  · intro h7 hcon
    rcases List.mem_filter.mp hcon with ⟨_, hp⟩
    simp [daysAgoOf, hm] at hp
    omega
  · intro h7
    exact List.mem_filter.mpr ⟨hmem, by simp [daysAgoOf, hm, h7]⟩

/-- Witness for C9: a movie released 3 days ago appears in the
recently-released section. -/
theorem released_filtered_at_format_only_witness :
    (⟨"M", 100, .released 3⟩ : MovieReport) ∈
      released_section (processMovies [.ok ⟨"M", 100, .released 3⟩]).released :=
  (released_filtered_at_format_only [.ok ⟨"M", 100, .released 3⟩]
    ⟨"M", 100, .released 3⟩ 3 rfl (by simp)).2.2 (by decide)

/-- C5 counterexample: with the email configuration incomplete the
send is suppressed even though a show has a new aired episode, so
"suppressed iff nothing notable" is false as stated. -/
theorem send_iff_notable_counterexample :
    ¬ ((check_all_send false [(⟨"A", 0, 0⟩, .ok [⟨1, 1, .date 0, "Pilot"⟩])] [] 10 = false) ↔
        (nothingNotable (processShows [(⟨"A", 0, 0⟩, .ok [⟨1, 1, .date 0, "Pilot"⟩])] 10)
          (processMovies []) = true)) := by
  decide

/-- C5 (amended): the check-all send is suppressed iff the email
configuration is incomplete or there is nothing notable to report
(no new episodes, no movie releasing today, none releasing soon);
with complete configuration, suppressed iff nothing notable; with
zero tracked shows and zero tracked movies nothing is sent. -/
theorem send_suppression_characterization (c : Bool)
    (showResults : List (TrackedShow × Except Unit (List Episode)))
    (movieResults : List (Except Unit MovieReport)) (today : Int) :
    (check_all_send c showResults movieResults today = false ↔
      (c = false ∨
        nothingNotable (processShows showResults today)
          (processMovies movieResults) = true)) ∧
    check_all_send c [] [] today = false := by
  constructor
  · unfold check_all_send send_attempted
    cases c <;>
      cases hn : nothingNotable (processShows showResults today)
        (processMovies movieResults) <;> simp [hn]
  · cases c <;> rfl

/-- C4 counterexample: `add_show` stores a user-supplied negative
season unchanged, so the non-negativity invariant fails on a
reachable persisted state. -/
theorem nonneg_invariant_counterexample :
    add_show [] "X" (some (-1)) (some 0) = [⟨"X", -1, 0⟩] ∧
    ¬ show_invariant (add_show [] "X" (some (-1)) (some 0)) := by
  constructor
  · rfl
  · intro h
    have hx := h ⟨"X", -1, 0⟩ (by rw [show add_show [] "X" (some (-1)) (some 0) =
      [(⟨"X", -1, 0⟩ : TrackedShow)] from rfl]; simp)
    exact absurd hx.1 (by decide)

/-- Helper: one operation with non-negative inputs preserves the
non-negativity invariant. -/
theorem apply_op_preserves_invariant (shows : List TrackedShow) (op : StoreOp)
    (hs : show_invariant shows) (hop : op_inputs_nonneg op = true) :
    show_invariant (apply_op shows op) := by
  cases op with
  | add n si ei =>
    simp only [apply_op, add_show]
    split
    · exact hs
    · cases si with
      | none => exact hs
      | some sv =>
        cases ei with
        | none => exact hs
        | some ev =>
          simp only [op_inputs_nonneg, Bool.and_eq_true, decide_eq_true_eq] at hop
          intro x hx
          rcases List.mem_append.mp hx with h | h
          · exact hs x h
          · simp only [List.mem_singleton] at h
            subst h
            exact hop
  | update c s e =>
    simp only [apply_op, update_show]
    split
    · exact hs
    · cases c with
      | none => exact hs
      | some cv =>
        cases s with
        | none => exact hs
        | some sv =>
          cases e with
          | none => exact hs
          | some ev =>
            simp only [op_inputs_nonneg, Bool.and_eq_true, decide_eq_true_eq] at hop
            dsimp only
            by_cases hb : 1 ≤ cv ∧ cv ≤ (shows.length : Int)
            · rw [if_pos hb]
              cases hidx : shows[(cv - 1).toNat]? with
              | none => exact hs
              | some old =>
                intro x hx
                rcases List.mem_or_eq_of_mem_set hx with h | h
                · exact hs x h
                · subst h
                  exact hop
            · rw [if_neg hb]
              exact hs
  | remove c =>
    simp only [apply_op, remove_show]
    split
    · exact hs
    · cases c with
      | none => exact hs
      | some cv =>
        dsimp only
        by_cases hb : 1 ≤ cv ∧ cv ≤ (shows.length : Int)
        · rw [if_pos hb]
          intro x hx
          exact hs x (List.eraseIdx_subset _ _ hx)
        · rw [if_neg hb]
          exact hs

/-- Helper: folding operations with non-negative inputs from an
invariant state keeps the invariant. -/
theorem foldl_ops_invariant (ops : List StoreOp) (init : List TrackedShow)
    (hinit : show_invariant init) (h : ∀ op ∈ ops, op_inputs_nonneg op = true) :
    show_invariant (ops.foldl apply_op init) := by
  induction ops generalizing init with
  | nil => exact hinit
  | cons op rest ih =>
    exact ih (apply_op init op)
      (apply_op_preserves_invariant init op hinit (h op (List.mem_cons_self op rest)))
      (fun o ho => h o (List.mem_cons_of_mem op ho))

/-- C4 (amended): the operations store the parsed integers unchanged,
so last_season and last_episode are non-negative on every persisted
state reachable from a first run provided every user-supplied season
and episode value is non-negative; the code itself never checks the
sign, so a negative input is stored as-is. -/
theorem nonneg_invariant_amended (ops : List StoreOp)
    (h : ∀ op ∈ ops, op_inputs_nonneg op = true) :
    show_invariant (run_ops ops) :=
  foldl_ops_invariant ops [] (fun s hs => absurd hs (List.not_mem_nil s)) h

/-- Witness for C4 (amended): an add followed by an update, all
inputs non-negative, yields a state satisfying the invariant. -/
theorem nonneg_invariant_amended_witness :
    show_invariant (run_ops
      [.add "A" (some 1) (some 2), .update (some 1) (some 3) (some 0)]) :=
  nonneg_invariant_amended _ (by decide)

end ShowTracker
